import Mathlib

/-!
Shallow embedding of the connection-protocol layer of the xiao-asgi
repository (file xiao_asgi/connections.py), together with a model of the
Response rendering contract (file xiao_asgi/responses.py, known here only
through its spec and its unit tests).

Wire messages are Python dicts; they are embedded as association lists from
string keys to a small universe of values.  The asynchronous raw channel is
embedded as the list of messages still pending on its receive side: awaiting
the raw receive primitive pops the head of that list.  Python exceptions are
embedded as an error enumeration carried by Except or by explicit result
structures (the result structures also report the messages actually sent and
the state actually reached, so that no-rollback and no-partial-transition
properties can be stated).
-/

/-- Universe of values a wire-message field can hold: strings, byte strings
(as lists of byte values), booleans, integers, and header lists (sequences of
byte-string pairs). -/
inductive Value where
  | str : String → Value
  | bytes : List Nat → Value
  | bool : Bool → Value
  | int : Int → Value
  | headerList : List (List Nat × List Nat) → Value
deriving DecidableEq, Repr

/-- A wire message: a Python dict embedded as an association list. -/
abbrev Message : Type := List (String × Value)

/-- Dict lookup, returning none where Python raises KeyError. -/
def dictGet : Message → String → Option Value
  | [], _ => none
  | (k, v) :: rest, key => if k = key then some v else dictGet rest key

/-- Python del d[key]: remove the key from the dict. -/
def dictDel : Message → String → Message
  | [], _ => []
  | (k, v) :: rest, key =>
      if k = key then dictDel rest key else (k, v) :: dictDel rest key

/-- Python truthiness of a Value, as used by if not data[more_body]. -/
def Value.truthy : Value → Bool
  | .str s => s ≠ ""
  | .bytes b => b ≠ []
  | .bool b => b
  | .int n => n ≠ 0
  | .headerList l => l ≠ []

/-- Helper for splitDot: accumulate characters of the current segment. -/
def splitDotAux : List Char → List Char → List (List Char)
  | [], cur => [cur.reverse]
  | c :: cs, cur =>
      if c = '.' then cur.reverse :: splitDotAux cs []
      else splitDotAux cs (c :: cur)

/-- Python s.split on a dot separator: always returns at least one segment;
adjacent separators yield empty segments. -/
def splitDot (s : String) : List String :=
  (splitDotAux s.data []).map List.asString

/-- The errors (Python exception conditions) this layer can produce.
channelEmpty stands for awaiting the raw receive primitive with nothing left
to deliver; valueError is the unpacking failure of a two-target assignment
from a split with a segment count other than two; indexError is a
subscript past the end of the split; keyError and typeError are the
corresponding Python dict/operand failures. -/
inductive Err where
  | protocolUnknown
  | protocolMismatch
  | typeMismatch
  | invalidConnectionState
  | keyError
  | typeError
  | valueError
  | indexError
  | channelEmpty
deriving DecidableEq, Repr

/-- A typed Request as built by receive_request: protocol, sub-type, and the
remaining wire fields as data. -/
structure Request where
  protocol : String
  type : String
  data : Message
deriving DecidableEq, Repr

namespace HttpConnection

/-- HttpConnection.receive_request applied to one raw wire message: the base
receive protocol check (first segment of the type must be http), then the
two-target unpack of the split, the sub-type check against request, and the
stripping of the type key. -/
def receive_request_msg (m : Message) : Except Err Request :=
  match dictGet m "type" with
  | some (Value.str t) =>
      if (splitDot t).headD "" ≠ "http" then .error .protocolMismatch
      else
        match splitDot t with
        | [protocol, ty] =>
            if ty ≠ "request" then .error .typeMismatch
            else .ok ⟨protocol, ty, dictDel m "type"⟩
        | _ => .error .valueError
  | some _ => .error .typeError
  | none => .error .keyError

/-- HttpConnection.receive_request: awaiting the raw receive primitive pops
the head of the pending-message list, then the message is processed. -/
def receive_request (chan : List Message) :
    Except Err (Request × List Message) :=
  match chan with
  | [] => .error .channelEmpty
  | m :: rest =>
      match receive_request_msg m with
      | .error e => .error e
      | .ok req => .ok (req, rest)

/-- HttpConnection.stream_requests, drained to a list: repeatedly
receive_request, yield the request, and stop once the request's more_body
field is falsy (the terminating request is still yielded). -/
def stream_requests (chan : List Message) :
    Except Err (List Request × List Message) :=
  match chan with
  | [] => .error .channelEmpty
  | m :: rest =>
      match receive_request_msg m with
      | .error e => .error e
      | .ok req =>
          match dictGet req.data "more_body" with
          | some v =>
              if v.truthy then
                match stream_requests rest with
                | .error e => .error e
                | .ok (reqs, rest') => .ok (req :: reqs, rest')
              else .ok ([req], rest)
          | none => .error .keyError

/-- HttpConnection.get_requests_body with its accumulated body made explicit:
the generator-consumer composition of stream_requests with the body
concatenation loop.  Each iteration receives one request, appends its body
field to the accumulator (a non-bytes body is an operand failure, as in
Python), then consults more_body; on the falsy flag it returns the one
synthesized Request of sub-type request carrying the concatenated body and
a false more_body. -/
def get_requests_body (chan : List Message) (body : List Nat) :
    Except Err (Request × List Message) :=
  match chan with
  | [] => .error .channelEmpty
  | m :: rest =>
      match receive_request_msg m with
      | .error e => .error e
      | .ok req =>
          match dictGet req.data "body" with
          | some (Value.bytes chunk) =>
              match dictGet req.data "more_body" with
              | some v =>
                  if v.truthy then get_requests_body rest (body ++ chunk)
                  else
                    .ok (⟨"http", "request",
                          [("body", Value.bytes (body ++ chunk)),
                           ("more_body", Value.bool false)]⟩, rest)
              | none => .error .keyError
          | some _ => .error .typeError
          | none => .error .keyError

end HttpConnection

namespace WebSocketConnection

/-- Result of WebSocketConnection.send_response: the messages actually
forwarded to the raw send primitive in order, the application axis state
after the call, and the exception raised, if any.  The connection's other
state (client axis, scope) is untouched by send_response and omitted. -/
structure SendResult where
  sent : List Message
  state : String
  error : Option Err
deriving DecidableEq, Repr

/-- One iteration of the per-message loop of
WebSocketConnection.send_response: take the second segment of the message's
wire type, validate it against the current application axis state
(connecting admits accept and close; connected admits send and close; any
other state imposes no check), move the axis to disconnected on a close,
then forward the message through the base send, whose protocol check
compares the first segment of the type with websocket.  Returns the new
axis state on success, or the axis state at the raise paired with the
exception (the close transition precedes the base send, so a protocol
mismatch there still leaves the axis moved). -/
def ws_send_step (state : String) (m : Message) :
    Except (String × Err) String :=
  match dictGet m "type" with
  | some (Value.str t) =>
      match (splitDot t).get? 1 with
      | some message_type =>
          if state = "connecting" ∧
              message_type ≠ "accept" ∧ message_type ≠ "close" then
            .error (state, .invalidConnectionState)
          else if state = "connected" ∧
              message_type ≠ "send" ∧ message_type ≠ "close" then
            .error (state, .invalidConnectionState)
          else
            let state' :=
              if message_type = "close" then "disconnected" else state
            if (splitDot t).headD "" ≠ "websocket" then
              .error (state', .protocolMismatch)
            else .ok state'
      | none => .error (state, .indexError)
  | some _ => .error (state, .typeError)
  | none => .error (state, .keyError)

/-- The per-message loop of WebSocketConnection.send_response: run
ws_send_step on each rendered message in turn, recording each forwarded
message; a raise aborts the loop, keeping the messages already sent. -/
def ws_send_loop (state : String) (sent : List Message) :
    List Message → SendResult
  | [] => ⟨sent, state, none⟩
  | m :: ms =>
      match ws_send_step state m with
      | .error (state', e) => ⟨sent, state', some e⟩
      | .ok state' => ws_send_loop state' (sent ++ [m]) ms

/-- WebSocketConnection.send_response on the given application axis state:
refuse the whole call when the axis is already disconnected, otherwise run
the per-message loop over the rendered messages. -/
def send_response (state : String) (messages : List Message) : SendResult :=
  if state = "disconnected" then ⟨[], state, some .invalidConnectionState⟩
  else ws_send_loop state [] messages

instance {ε α : Type} [DecidableEq ε] [DecidableEq α] :
    DecidableEq (Except ε α) := fun x y =>
  match x, y with
  | .ok a, .ok b =>
      if h : a = b then isTrue (by rw [h]) else isFalse (by simp [h])
  | .error a, .error b =>
      if h : a = b then isTrue (by rw [h]) else isFalse (by simp [h])
  | .ok _, .error _ => isFalse (by simp)
  | .error _, .ok _ => isFalse (by simp)

/-- Result of WebSocketConnection.receive_request: the outcome (a typed
Request or the exception raised), the client axis state after the call, and
the pending-message list of the raw channel after the call (unchanged
exactly when the raw receive primitive was never awaited). -/
structure RecvResult where
  result : Except Err Request
  state : String
  chan : List Message
deriving DecidableEq, Repr

/-- WebSocketConnection.receive_request on the given client axis state and
pending-message list: refuse immediately when the axis is disconnected
without touching the channel; otherwise await the base receive (popping the
channel head and checking the first segment of its type against websocket),
unpack the split into protocol and sub-type, validate the sub-type against
the axis (connecting admits only connect, which moves the axis to connected;
connected admits receive and disconnect, the latter moving the axis to
disconnected; any other state imposes no check), and return the Request
with the type key stripped. -/
def receive_request (state : String) (chan : List Message) : RecvResult :=
  if state = "disconnected" then
    ⟨.error .invalidConnectionState, state, chan⟩
  else
    match chan with
    | [] => ⟨.error .channelEmpty, state, []⟩
    | m :: rest =>
        match dictGet m "type" with
        | some (Value.str t) =>
            if (splitDot t).headD "" ≠ "websocket" then
              ⟨.error .protocolMismatch, state, rest⟩
            else
              match splitDot t with
              | [protocol, ty] =>
                  if state = "connecting" then
                    if ty ≠ "connect" then
                      ⟨.error .invalidConnectionState, state, rest⟩
                    else ⟨.ok ⟨protocol, ty, dictDel m "type"⟩,
                          "connected", rest⟩
                  else if state = "connected" then
                    if ty ≠ "receive" ∧ ty ≠ "disconnect" then
                      ⟨.error .invalidConnectionState, state, rest⟩
                    else ⟨.ok ⟨protocol, ty, dictDel m "type"⟩,
                          if ty = "disconnect" then "disconnected"
                          else state, rest⟩
                  else ⟨.ok ⟨protocol, ty, dictDel m "type"⟩, state, rest⟩
              | _ => ⟨.error .valueError, state, rest⟩
        | some _ => ⟨.error .typeError, state, rest⟩
        | none => ⟨.error .keyError, state, rest⟩

/-- The application axis state after a sequence of send_response calls, each
given by the message list its Response renders. -/
def appStateAfter (state : String) : List (List Message) → String
  | [] => state
  | msgs :: rest => appStateAfter (send_response state msgs).state rest

end WebSocketConnection

/-- Modelled from the spec: the Response rendering contract of the missing
file xiao_asgi/responses.py, known through spec section 4.1 and the unit
tests in tests/unit/test_responses.py.  The uninstantiable abstract base is
rendered as a closed inductive over the two concrete variants: BodyResponse
(whole body) and StreamResponse (chunked body). -/
inductive Response where
  | bodyResponse (status : Int) (headers : List (List Nat × List Nat))
      (body : List Nat)
  | streamResponse (status : Int) (headers : List (List Nat × List Nat))
      (chunks : List (List Nat))
deriving DecidableEq, Repr

/-- The http.response.start wire message carrying status and headers. -/
def startMessage (status : Int) (headers : List (List Nat × List Nat)) :
    Message :=
  [("type", Value.str "http.response.start"), ("status", Value.int status),
   ("headers", Value.headerList headers)]

/-- An http.response.body wire message carrying a body chunk and the
more_body continuation flag. -/
def bodyMessage (body : List Nat) (more_body : Bool) : Message :=
  [("type", Value.str "http.response.body"), ("body", Value.bytes body),
   ("more_body", Value.bool more_body)]

/-- Modelled from the spec: render_messages of the missing file
xiao_asgi/responses.py.  The whole-body variant emits the start message and
one body message with a false continuation flag; the streamed variant emits
the start message, one body message per chunk with a true flag, then a
final empty body message with a false flag. -/
def Response.render_messages : Response → List Message
  | .bodyResponse status headers body =>
      [startMessage status headers, bodyMessage body false]
  | .streamResponse status headers chunks =>
      startMessage status headers ::
        (chunks.map (fun chunk => bodyMessage chunk true) ++
          [bodyMessage [] false])

/-- A constructed Connection instance: the concrete type selected from the
registry, carrying the scope it was constructed with; a WebSocket
connection additionally carries its two state axes, both initially
connecting. -/
inductive Conn where
  | http (scope : Message)
  | websocket (scope : Message) (application_connection_state : String)
      (client_connection_state : String)
deriving DecidableEq, Repr

/-- The fixed registry mapping protocol names to connection constructors. -/
def protocols : List (String × (Message → Conn)) :=
  [("http", Conn.http),
   ("websocket", fun scope => Conn.websocket scope "connecting" "connecting")]

/-- make_connection: look up the scope's type field in the registry and
construct the connection; a missing type key and an unregistered name both
surface as the KeyError that is converted to ProtocolUnknown. -/
def make_connection (scope : Message) : Except Err Conn :=
  match dictGet scope "type" with
  | some (Value.str t) =>
      match protocols.lookup t with
      | some build => .ok (build scope)
      | none => .error .protocolUnknown
  | _ => .error .protocolUnknown

/-- A wire message for the websocket accept sub-type. -/
def acceptWire : Message := [("type", Value.str "websocket.accept")]

/-- A wire message for the websocket send sub-type. -/
def sendWire : Message :=
  [("type", Value.str "websocket.send"), ("text", Value.str "hello")]

/-- A wire message for the websocket close sub-type. -/
def closeWire : Message :=
  [("type", Value.str "websocket.close"), ("code", Value.int 1000)]

/-- A wire message for the websocket receive sub-type. -/
def receiveWire : Message :=
  [("type", Value.str "websocket.receive"), ("text", Value.str "ping")]

/-- An http request chunk message carrying a body and a more_body flag. -/
def chunkWire (b : List Nat) (more : Bool) : Message :=
  [("type", Value.str "http.request"), ("body", Value.bytes b),
   ("more_body", Value.bool more)]

/-- A chunked inbound body as it appears on the wire: more_body true on
every chunk but the last. -/
def chunkWires : List (List Nat) → List Message
  | [] => []
  | [b] => [chunkWire b false]
  | b :: bs => chunkWire b true :: chunkWires bs

/-- A raising iteration of the send loop leaves the application axis where
it was or moves it to disconnected. -/
theorem ws_send_step_error_state (state : String) (m : Message)
    (st : String) (e : Err)
    (h : WebSocketConnection.ws_send_step state m = .error (st, e)) :
    st = state ∨ st = "disconnected" := by
  unfold WebSocketConnection.ws_send_step at h
  repeat' split at h
  all_goals simp_all

/-- A successful iteration of the send loop leaves the application axis
where it was or moves it to disconnected. -/
theorem ws_send_step_ok_state (state : String) (m : Message) (st : String)
    (h : WebSocketConnection.ws_send_step state m = .ok st) :
    st = state ∨ st = "disconnected" := by
  unfold WebSocketConnection.ws_send_step at h
  repeat' split at h
  all_goals simp_all

/-- The per-message loop of send_response can only leave the application
axis where it was or move it to disconnected; no branch produces any other
state. -/
theorem ws_send_loop_state_cases (ms : List Message) : ∀ state sent,
    (WebSocketConnection.ws_send_loop state sent ms).state = state ∨
    (WebSocketConnection.ws_send_loop state sent ms).state = "disconnected" := by
  induction ms with
  | nil => intro state sent; exact Or.inl rfl
  | cons m ms ih =>
      intro state sent
      unfold WebSocketConnection.ws_send_loop
      rcases hstep : WebSocketConnection.ws_send_step state m with ⟨st, e⟩ | st
      · exact ws_send_step_error_state state m st e hstep
      · rcases ws_send_step_ok_state state m st hstep with h | h
        · rw [h]
          exact ih state (sent ++ [m])
        · rw [h]
          rcases ih "disconnected" (sent ++ [m]) with h2 | h2
          · exact Or.inr h2
          · exact Or.inr h2

/-- send_response leaves the application axis where it was or moves it to
disconnected. -/
theorem send_response_state_cases (state : String) (msgs : List Message) :
    (WebSocketConnection.send_response state msgs).state = state ∨
    (WebSocketConnection.send_response state msgs).state = "disconnected" := by
  unfold WebSocketConnection.send_response
  split
  · exact Or.inl rfl
  · exact ws_send_loop_state_cases msgs state []

/-- Any sequence of send_response calls started in a state other than
connected never brings the application axis to connected. -/
theorem appStateAfter_never_connected (rs : List (List Message)) :
    ∀ state, state ≠ "connected" →
      WebSocketConnection.appStateAfter state rs ≠ "connected" := by
  induction rs with
  | nil => intro state h; exact h
  | cons msgs rest ih =>
      intro state h
      unfold WebSocketConnection.appStateAfter
      apply ih
      rcases send_response_state_cases state msgs with h2 | h2
      · rw [h2]; exact h
      · rw [h2]; decide

/-- C1: the claim says some sequence of send_response calls starting from
connecting (for instance, one sending a validated accept message) brings
the application axis to connected, where send and close are legal.  The
code disagrees: send_response never assigns connected to the application
axis, so no sequence of calls reaches that state; concretely, after a
validated accept the axis is still connecting, and a following send
message raises InvalidConnectionState. -/
theorem c1_application_axis_never_connected :
    (∀ rs : List (List Message),
      WebSocketConnection.appStateAfter "connecting" rs ≠ "connected") ∧
    WebSocketConnection.send_response "connecting" [acceptWire, sendWire] =
      ⟨[acceptWire], "connecting", some Err.invalidConnectionState⟩ := by
  constructor
  · intro rs
    exact appStateAfter_never_connected rs "connecting" (by decide)
  · decide

/-- C6: whenever the application axis is already disconnected at the start
of a send_response call, the call raises InvalidConnectionState before any
message is sent, for every rendered message list. -/
theorem c6_send_response_refused_when_disconnected :
    ∀ messages : List Message,
      WebSocketConnection.send_response "disconnected" messages =
        ⟨[], "disconnected", some Err.invalidConnectionState⟩ := by
  intro messages
  rfl

/-- C7: every receive_request attempted while the client axis is
disconnected fails with InvalidConnectionState, and the raw channel is
left exactly as it was, so its receive primitive was never invoked. -/
theorem c7_receive_request_refused_when_disconnected :
    ∀ chan : List Message,
      WebSocketConnection.receive_request "disconnected" chan =
        ⟨.error .invalidConnectionState, "disconnected", chan⟩ := by
  intro chan
  rfl

/-- Once the application axis is disconnected, an iteration of the send
loop performs no state validation at all: any message whose type parses as
a two-segment websocket type is forwarded, whatever its sub-type. -/
theorem ws_send_step_disconnected (m : Message) (t sub : String)
    (ht : dictGet m "type" = some (Value.str t))
    (hsplit : splitDot t = ["websocket", sub]) :
    WebSocketConnection.ws_send_step "disconnected" m = .ok "disconnected" := by
  simp only [WebSocketConnection.ws_send_step, ht, hsplit]
  simp

/-- In the disconnected application axis state, the send loop forwards
every remaining parseable websocket message and raises nothing. -/
theorem ws_send_loop_disconnected_sends_all (rest : List Message) :
    ∀ sent, (∀ m ∈ rest, ∃ t sub, dictGet m "type" = some (Value.str t) ∧
        splitDot t = ["websocket", sub]) →
      WebSocketConnection.ws_send_loop "disconnected" sent rest =
        ⟨sent ++ rest, "disconnected", none⟩ := by
  induction rest with
  | nil =>
      intro sent h
      simp [WebSocketConnection.ws_send_loop]
  | cons m ms ih =>
      intro sent h
      obtain ⟨t, sub, ht, hsplit⟩ := h m (List.mem_cons_self m ms)
      simp only [WebSocketConnection.ws_send_loop,
        ws_send_step_disconnected m t sub ht hsplit]
      rw [ih (sent ++ [m]) (fun m' hm' => h m' (List.mem_cons_of_mem m hm'))]
      simp

/-- C2, counterexample: the claim says that after a validated close in the
same send_response call, a subsequent message is forwarded only if it
individually validates against the disconnected axis, in which no response
content may legally exist — so a send message after a close must not reach
the channel.  The code forwards it: on a close followed by a send, both
messages are sent and no exception is raised. -/
theorem c2_counterexample :
    WebSocketConnection.send_response "connecting" [closeWire, sendWire] =
      ⟨[closeWire, sendWire], "disconnected", none⟩ := by
  decide

/-- C2, amended: within a single send_response call starting from the
connecting or connected application axis, once a close message has been
validated and sent the axis is disconnected, and every subsequent message
of the same call whose type parses as a websocket type is forwarded to the
channel without any per-message state validation (the disconnected-axis
refusal applies only at the start of a call); messages already sent
earlier in the call remain sent (no rollback). -/
theorem c2_close_disconnects_then_unvalidated_forwarding
    (state : String) (sent rest : List Message)
    (hstate : state = "connecting" ∨ state = "connected")
    (hrest : ∀ m ∈ rest, ∃ t sub, dictGet m "type" = some (Value.str t) ∧
        splitDot t = ["websocket", sub]) :
    WebSocketConnection.ws_send_loop state sent (closeWire :: rest) =
      ⟨sent ++ closeWire :: rest, "disconnected", none⟩ ∧
    WebSocketConnection.send_response state (closeWire :: rest) =
      ⟨closeWire :: rest, "disconnected", none⟩ := by
  have hstep : WebSocketConnection.ws_send_step state closeWire =
      .ok "disconnected" := by
    rcases hstate with h | h <;> subst h <;> decide
  have hloop : ∀ s : List Message,
      WebSocketConnection.ws_send_loop state s (closeWire :: rest) =
        ⟨s ++ closeWire :: rest, "disconnected", none⟩ := by
    intro s
    simp only [WebSocketConnection.ws_send_loop, hstep]
    rw [ws_send_loop_disconnected_sends_all rest (s ++ [closeWire]) hrest]
    simp
  refine ⟨hloop sent, ?_⟩
  have hns : state ≠ "disconnected" := by
    rcases hstate with h | h <;> subst h <;> decide
  unfold WebSocketConnection.send_response
  rw [if_neg hns]
  exact hloop []

/-- Witness for the amended C2 at a concrete input: a close followed by a
send, starting from the connecting axis. -/
theorem c2_witness :
    WebSocketConnection.ws_send_loop "connecting" [] (closeWire :: [sendWire]) =
      ⟨[] ++ closeWire :: [sendWire], "disconnected", none⟩ ∧
    WebSocketConnection.send_response "connecting" (closeWire :: [sendWire]) =
      ⟨closeWire :: [sendWire], "disconnected", none⟩ :=
  c2_close_disconnects_then_unvalidated_forwarding "connecting" [] [sendWire]
    (Or.inl rfl)
    (by
      intro m hm
      rw [List.mem_singleton] at hm
      subst hm
      exact ⟨"websocket.send", "send", rfl, by decide⟩)

/-- C3: receive_request transition rules of the client axis, for a received
message whose wire type parses as websocket dot sub.  In connecting, only
the connect sub-type is legal and moves the axis to connected; in
connected, only receive and disconnect are legal, with disconnect moving
the axis to disconnected; every other sub-type raises
InvalidConnectionState with the axis left exactly as it was before the
call. -/
theorem c3_client_axis_transition_rules
    (state : String) (m : Message) (rest : List Message) (t sub : String)
    (ht : dictGet m "type" = some (Value.str t))
    (hsplit : splitDot t = ["websocket", sub]) :
    (state = "connecting" →
      (sub = "connect" →
        WebSocketConnection.receive_request state (m :: rest) =
          ⟨.ok ⟨"websocket", sub, dictDel m "type"⟩, "connected", rest⟩) ∧
      (sub ≠ "connect" →
        WebSocketConnection.receive_request state (m :: rest) =
          ⟨.error .invalidConnectionState, state, rest⟩)) ∧
    (state = "connected" →
      (sub = "receive" →
        WebSocketConnection.receive_request state (m :: rest) =
          ⟨.ok ⟨"websocket", sub, dictDel m "type"⟩, "connected", rest⟩) ∧
      (sub = "disconnect" →
        WebSocketConnection.receive_request state (m :: rest) =
          ⟨.ok ⟨"websocket", sub, dictDel m "type"⟩, "disconnected", rest⟩) ∧
      (sub ≠ "receive" → sub ≠ "disconnect" →
        WebSocketConnection.receive_request state (m :: rest) =
          ⟨.error .invalidConnectionState, state, rest⟩)) := by
  constructor
  · intro hs
    subst hs
    constructor
    · intro hc
      subst hc
      simp only [WebSocketConnection.receive_request, ht, hsplit]
      simp
    · intro hc
      simp only [WebSocketConnection.receive_request, ht, hsplit]
      simp [hc]
  · intro hs
    subst hs
    refine ⟨?_, ?_, ?_⟩
    · intro hc
      subst hc
      simp only [WebSocketConnection.receive_request, ht, hsplit]
      simp
    · intro hc
      subst hc
      simp only [WebSocketConnection.receive_request, ht, hsplit]
      simp
    · intro hc1 hc2
      simp only [WebSocketConnection.receive_request, ht, hsplit]
      simp [hc1, hc2]

/-- Witness for C3 at a concrete input: a receive message while the client
axis is still connecting raises InvalidConnectionState and leaves the axis
at connecting. -/
theorem c3_witness :
    WebSocketConnection.receive_request "connecting" [receiveWire] =
      ⟨.error .invalidConnectionState, "connecting", []⟩ :=
  ((c3_client_axis_transition_rules "connecting" receiveWire []
      "websocket.receive" "receive" rfl (by decide)).1 rfl).2 (by decide)

/-- C10: in the connecting or connected client axis state, receive_request
completes the raw channel receive before validating the sub-type, so an
illegal sub-type raises InvalidConnectionState with the offending message
already popped from the channel (it is not delivered and cannot be
received again); only the disconnected state rejects with the channel
untouched. -/
theorem c10_offending_message_consumed
    (state : String) (m : Message) (rest : List Message) (t sub : String)
    (hstate : state = "connecting" ∨ state = "connected")
    (ht : dictGet m "type" = some (Value.str t))
    (hsplit : splitDot t = ["websocket", sub])
    (hillegal : (state = "connecting" → sub ≠ "connect") ∧
      (state = "connected" → sub ≠ "receive" ∧ sub ≠ "disconnect")) :
    WebSocketConnection.receive_request state (m :: rest) =
      ⟨.error .invalidConnectionState, state, rest⟩ ∧
    (∀ chan : List Message,
      WebSocketConnection.receive_request "disconnected" chan =
        ⟨.error .invalidConnectionState, "disconnected", chan⟩) := by
  constructor
  · rcases hstate with hs | hs
    · subst hs
      simp only [WebSocketConnection.receive_request, ht, hsplit]
      simp [hillegal.1 rfl]
    · subst hs
      simp only [WebSocketConnection.receive_request, ht, hsplit]
      simp [(hillegal.2 rfl).1, (hillegal.2 rfl).2]
  · intro chan
    rfl

/-- Witness for C10 at a concrete input: a close sub-type received while
the client axis is connected is illegal; the message is consumed from the
channel and InvalidConnectionState is raised. -/
theorem c10_witness :
    WebSocketConnection.receive_request "connected" [closeWire, receiveWire] =
      ⟨.error .invalidConnectionState, "connected", [receiveWire]⟩ ∧
    (∀ chan : List Message,
      WebSocketConnection.receive_request "disconnected" chan =
        ⟨.error .invalidConnectionState, "disconnected", chan⟩) :=
  c10_offending_message_consumed "connected" closeWire [receiveWire]
    "websocket.close" "close" (Or.inr rfl) rfl (by decide)
    ⟨by decide, by decide⟩

/-- The wire type of an http request chunk splits into the http protocol
segment and the request sub-type segment. -/
theorem splitDot_http_request : splitDot "http.request" = ["http", "request"] := by
  decide

/-- Receiving one http request chunk message succeeds and strips the type
key, leaving the body and the continuation flag as the Request data. -/
theorem receive_request_msg_chunkWire (b : List Nat) (more : Bool) :
    HttpConnection.receive_request_msg (chunkWire b more) =
      .ok ⟨"http", "request",
            [("body", Value.bytes b), ("more_body", Value.bool more)]⟩ := by
  simp [HttpConnection.receive_request_msg, chunkWire, dictGet, dictDel,
    splitDot_http_request]

/-- get_requests_body over a chunked wire body: the accumulated body is
extended by the concatenation of all chunks, the terminating chunk counted
once, and the rest of the channel is left pending. -/
theorem get_requests_body_chunkWires (bs : List (List Nat)) :
    ∀ (body : List Nat) (rest : List Message), bs ≠ [] →
      HttpConnection.get_requests_body (chunkWires bs ++ rest) body =
        .ok (⟨"http", "request",
              [("body", Value.bytes (body ++ bs.flatten)),
               ("more_body", Value.bool false)]⟩, rest) := by
  induction bs with
  | nil => intro body rest h; exact absurd rfl h
  | cons b bs ih =>
      intro body rest h
      cases bs with
      | nil =>
          simp only [chunkWires, List.cons_append, List.nil_append,
            HttpConnection.get_requests_body, receive_request_msg_chunkWire]
          simp [dictGet, Value.truthy]
      | cons b2 bs2 =>
          simp only [chunkWires, List.cons_append,
            HttpConnection.get_requests_body, receive_request_msg_chunkWire]
          simp [dictGet, Value.truthy, ih (body ++ b) rest (by simp),
            List.append_assoc]

/-- C4: for a sequence of n received requests whose more_body flag is true
for the first n-1 and false for the last, get_requests_body returns exactly
one Request of sub-type request whose data carries the concatenation, in
arrival order, of all n body payloads and a false more_body, counting the
terminating (possibly empty) chunk exactly once. -/
theorem c4_get_requests_body_concatenates (bs : List (List Nat))
    (rest : List Message) (h : bs ≠ []) :
    HttpConnection.get_requests_body (chunkWires bs ++ rest) [] =
      .ok (⟨"http", "request",
            [("body", Value.bytes bs.flatten),
             ("more_body", Value.bool false)]⟩, rest) := by
  have := get_requests_body_chunkWires bs [] rest h
  simpa using this

/-- Witness for C4 at a concrete input: three chunks, the last empty. -/
theorem c4_witness :
    HttpConnection.get_requests_body (chunkWires [[1, 2], [3], []] ++ []) [] =
      .ok (⟨"http", "request",
            [("body", Value.bytes (List.flatten [[1, 2], [3], []])),
             ("more_body", Value.bool false)]⟩, []) :=
  c4_get_requests_body_concatenates [[1, 2], [3], []] [] (by decide)

/-- C5: on the http connection, a received wire message that passes the
base protocol check and splits into a protocol and a sub-type fails with
TypeMismatch whenever the sub-type differs from request; when the sub-type
is request the call succeeds, stripping the type key and returning a
Request carrying the remaining fields as data. -/
theorem c5_http_receive_request_subtype_rule
    (m : Message) (rest : List Message) (t protocol sub : String)
    (ht : dictGet m "type" = some (Value.str t))
    (hsplit : splitDot t = [protocol, sub])
    (hproto : protocol = "http") :
    (sub ≠ "request" →
      HttpConnection.receive_request (m :: rest) = .error .typeMismatch) ∧
    (sub = "request" →
      HttpConnection.receive_request (m :: rest) =
        .ok (⟨protocol, sub, dictDel m "type"⟩, rest)) := by
  subst hproto
  constructor
  · intro hs
    simp only [HttpConnection.receive_request,
      HttpConnection.receive_request_msg, ht, hsplit]
    simp [hs]
  · intro hs
    subst hs
    simp only [HttpConnection.receive_request,
      HttpConnection.receive_request_msg, ht, hsplit]
    simp

/-- Witness for C5 at a concrete input: an http.response wire message is
rejected with TypeMismatch. -/
theorem c5_witness :
    HttpConnection.receive_request [[("type", Value.str "http.response")]] =
      .error .typeMismatch :=
  (c5_http_receive_request_subtype_rule [("type", Value.str "http.response")]
      [] "http.response" "http" "response" rfl (by decide) rfl).1 (by decide)

/-- C8: render_messages of the whole-body variant yields exactly 2 messages
(the start message, then a body message with a false continuation flag);
render_messages of the streamed variant yields len(chunks)+2 messages whose
last always carries an empty body and a false continuation flag, including
when chunks is empty. -/
theorem c8_render_messages_shape :
    (∀ (status : Int) (headers : List (List Nat × List Nat))
        (body : List Nat),
      (Response.bodyResponse status headers body).render_messages.length = 2 ∧
      (Response.bodyResponse status headers body).render_messages =
        [startMessage status headers, bodyMessage body false]) ∧
    (∀ (status : Int) (headers : List (List Nat × List Nat))
        (chunks : List (List Nat)),
      (Response.streamResponse status headers chunks).render_messages.length =
        chunks.length + 2 ∧
      (Response.streamResponse status headers chunks).render_messages.getLast? =
        some (bodyMessage [] false)) := by
  constructor
  · intro status headers body
    exact ⟨rfl, rfl⟩
  · intro status headers chunks
    constructor
    · simp [Response.render_messages]
    · show ((startMessage status headers ::
          chunks.map (fun chunk => bodyMessage chunk true)) ++
          [bodyMessage [] false]).getLast? = some (bodyMessage [] false)
      exact List.getLast?_concat _

/-- C9: make_connection with a scope whose declared protocol name is
outside the fixed registry of http and websocket fails with
ProtocolUnknown; a registered name yields the corresponding concrete
connection type constructed with the given scope, a websocket connection
starting with both state axes at connecting. -/
theorem c9_make_connection_registry (scope : Message) (t : String)
    (ht : dictGet scope "type" = some (Value.str t)) :
    (t ≠ "http" → t ≠ "websocket" →
      make_connection scope = .error .protocolUnknown) ∧
    (t = "http" → make_connection scope = .ok (Conn.http scope)) ∧
    (t = "websocket" →
      make_connection scope =
        .ok (Conn.websocket scope "connecting" "connecting")) := by
  refine ⟨?_, ?_, ?_⟩
  · intro h1 h2
    simp only [make_connection, ht, protocols]
    simp only [List.lookup, beq_eq_false_iff_ne.mpr h1,
      beq_eq_false_iff_ne.mpr h2]
  · intro h
    subst h
    simp only [make_connection, ht, protocols]
    simp [List.lookup]
  · intro h
    subst h
    simp only [make_connection, ht, protocols]
    simp [List.lookup]

/-- Witness for C9 at a concrete input: an unregistered protocol name. -/
theorem c9_witness :
    make_connection [("type", Value.str "ftp")] = .error .protocolUnknown :=
  (c9_make_connection_registry [("type", Value.str "ftp")] "ftp" rfl).1
    (by decide) (by decide)
